import Mathlib

/-
  Verification of the agent-orchestration core of ia-chat-mvp.

  Shallow embedding of `src/agents/base_agent.py` (BaseAgent: run, chat,
  _prepare_prompt, reset_conversation, get_conversation_history) and
  `src/agents/types/coordinator_agent.py` (CoordinatorAgent: register_agent,
  list_available_agents, delegate_and_synthesize, _format_results).

  The Ollama HTTP client is modelled as an oracle: each backend call is a
  function of the request and of the index of the call (how many backend
  calls were made before it), returning either a response or an error
  (a raised exception in the Python source).  A call counter is threaded
  through every operation so that claims about the number of backend calls
  can be stated.  Python dicts are modelled as association lists in
  insertion order, with the update-in-place-or-append semantics of dict
  assignment.
-/

namespace IaChat

/-- One entry of `BaseAgent.conversation_history`: a dict with keys
`role` and `content`. -/
structure Turn where
  role : String
  content : String
deriving DecidableEq, Repr

/-- The dict `{"role": "user", "content": c}` appended by `run` and `chat`. -/
def userTurn (c : String) : Turn := { role := "user", content := c }

/-- The dict `{"role": "assistant", "content": c}` appended by `run` and `chat`. -/
def assistantTurn (c : String) : Turn := { role := "assistant", content := c }

/-- `AgentConfig` from `base_agent.py`. -/
structure AgentConfig where
  name : String
  model : String
  system_prompt : String
  temperature : Float
  max_tokens : Option Nat
  description : String

/-- The state of a `BaseAgent`: its immutable config and its mutable
`conversation_history`. -/
structure Agent where
  config : AgentConfig
  conversation_history : List Turn

/-- The arguments of a call to `OllamaClient.generate`. -/
structure GenRequest where
  model : String
  prompt : String
  system : String
  temperature : Float
  max_tokens : Option Nat

/-- The arguments of a call to `OllamaClient.chat`. -/
structure ChatRequest where
  model : String
  messages : List Turn
  temperature : Float
  max_tokens : Option Nat

/-- The `message` field of an Ollama chat response: a dict that may or may
not carry a `content` key. -/
structure ChatMessageField where
  content : Option String

/-- A structured Ollama chat response: it may or may not carry a `message`
key, and `str_repr` is its Python stringification `str(response_data)`. -/
structure ChatResponse where
  message : Option ChatMessageField
  str_repr : String

/-- Oracle model of `OllamaClient`: the outcome of each backend call is a
function of the request and of the call index; `Except.error` models a
raised exception. -/
structure OllamaClient where
  generate : GenRequest → Nat → Except String String
  chat : ChatRequest → Nat → Except String ChatResponse

/-- `BaseAgent._prepare_prompt`.  The Python guard `if context:` is a
truthiness test, so both `None` and an empty dict fall through to
returning the task verbatim. -/
def prepare_prompt (task : String) (context : Option (List (String × String))) : String :=
  match context with
  | some ctx =>
      if ctx.isEmpty then task
      else
        let context_str := String.intercalate "\n" (ctx.map fun kv => kv.1 ++ ": " ++ kv.2)
        "Context:\n" ++ context_str ++ "\n\nTask:\n" ++ task
  | none => task

/-- The `GenRequest` that `BaseAgent.run` sends for a given prompt. -/
def genRequestOf (a : Agent) (prompt : String) : GenRequest :=
  { model := a.config.model
    prompt := prompt
    system := a.config.system_prompt
    temperature := a.config.temperature
    max_tokens := a.config.max_tokens }

/-- `BaseAgent.run`.  On success the user/assistant turn pair is appended
to the history after the backend call returns; on a raised exception the
error propagates and the history is left as it was. -/
def Agent.run (client : OllamaClient) (a : Agent) (calls : Nat) (task : String)
    (context : Option (List (String × String))) :
    Except String String × Agent × Nat :=
  let prompt := prepare_prompt task context
  match client.generate (genRequestOf a prompt) calls with
  | .ok response =>
      (.ok response,
       { a with conversation_history :=
           a.conversation_history ++ [userTurn task, assistantTurn response] },
       calls + 1)
  | .error e => (.error e, a, calls + 1)

/-- The `ChatRequest` that `BaseAgent.chat` sends for a given history. -/
def chatRequestOf (a : Agent) (messages : List Turn) : ChatRequest :=
  { model := a.config.model
    messages := messages
    temperature := a.config.temperature
    max_tokens := a.config.max_tokens }

/-- The reply-extraction step of `BaseAgent.chat`: if the response dict has
a `message` key, take its `content` (defaulting to the empty string),
otherwise stringify the whole response. -/
def extractReply (rd : ChatResponse) : String :=
  match rd.message with
  | some m => m.content.getD ""
  | none => rd.str_repr

/-- `BaseAgent.chat`.  The user turn is appended before the backend call,
so it survives a failure; the assistant turn is appended only on success. -/
def Agent.chat (client : OllamaClient) (a : Agent) (calls : Nat) (message : String) :
    Except String String × Agent × Nat :=
  let h1 := a.conversation_history ++ [userTurn message]
  match client.chat (chatRequestOf a h1) calls with
  | .ok rd =>
      let response := extractReply rd
      (.ok response,
       { a with conversation_history := h1 ++ [assistantTurn response] },
       calls + 1)
  | .error e => (.error e, { a with conversation_history := h1 }, calls + 1)

/-- `BaseAgent.reset_conversation`. -/
def Agent.reset_conversation (a : Agent) : Agent :=
  { a with conversation_history := [] }

/-- `BaseAgent.get_conversation_history` (the `.copy()` is the identity in
a pure model). -/
def Agent.get_conversation_history (a : Agent) : List Turn :=
  a.conversation_history

/-! ## Python dict model

`CoordinatorAgent.available_agents` is a Python dict.  We model it as an
association list in insertion order: assignment to an existing key
replaces the value in place, assignment to a fresh key appends. -/

/-- The keys of a dict, in insertion order (`list(d.keys())`). -/
def dictKeys {α : Type} (d : List (String × α)) : List String :=
  d.map Prod.fst

/-- Dict assignment `d[k] = v`. -/
def dictSet {α : Type} (d : List (String × α)) (k : String) (v : α) :
    List (String × α) :=
  if d.any (fun kv => kv.1 == k) then
    d.map (fun kv => if kv.1 == k then (k, v) else kv)
  else
    d ++ [(k, v)]

/-- Dict lookup `d[k]` (`none` models `k not in d`). -/
def dictGet {α : Type} (d : List (String × α)) (k : String) : Option α :=
  (d.find? (fun kv => kv.1 == k)).map Prod.snd

/-! ## CoordinatorAgent -/

/-- `CoordinatorAgent.DEFAULT_SYSTEM_PROMPT`. -/
def coordinatorDefaultSystemPrompt : String :=
  "Eres un agente coordinador experto en gestión de tareas complejas y delegación.\n\nTus responsabilidades:\n- Analizar tareas complejas y dividirlas en subtareas\n- Determinar qué agente especializado es mejor para cada subtarea\n- Coordinar múltiples agentes para lograr objetivos\n- Sintetizar resultados de diferentes agentes\n- Asegurar coherencia y calidad en el resultado final\n\nCuando coordines:\n1. Desglose la tarea principal en pasos manejables\n2. Identifica las habilidades necesarias para cada paso\n3. Asigna tareas a los agentes apropiados\n4. Integra los resultados de forma coherente\n5. Verifica que se cumplan todos los objetivos\n\nAgentes disponibles:\n- Researcher: Investigación y análisis profundo\n- Coder: Programación y desarrollo de software\n- ...otros pueden ser añadidos\n\nSé estratégico, eficiente y orientado a resultados."

/-- Python `custom_system_prompt or DEFAULT`: `None` and the empty string
are falsy and select the default. -/
def promptOrDefault (custom : Option String) (default : String) : String :=
  match custom with
  | some s => if s.isEmpty then default else s
  | none => default

/-- The state of a `CoordinatorAgent`: its own `BaseAgent` state plus the
`available_agents` registry. -/
structure CoordinatorAgent where
  agent : Agent
  available_agents : List (String × Agent)

/-- `CoordinatorAgent.__init__`. -/
def mkCoordinator (model : String) (temperature : Float)
    (custom_system_prompt : Option String) : CoordinatorAgent :=
  { agent :=
      { config :=
          { name := "Coordinator"
            model := model
            system_prompt := promptOrDefault custom_system_prompt coordinatorDefaultSystemPrompt
            temperature := temperature
            max_tokens := some 3072
            description := "Agente coordinador para orquestación multi-agente" }
        conversation_history := [] }
    available_agents := [] }

/-- `CoordinatorAgent.register_agent`: `self.available_agents[agent.config.name] = agent`. -/
def CoordinatorAgent.register_agent (c : CoordinatorAgent) (a : Agent) : CoordinatorAgent :=
  { c with available_agents := dictSet c.available_agents a.config.name a }

/-- `CoordinatorAgent.list_available_agents`: `list(self.available_agents.keys())`. -/
def CoordinatorAgent.list_available_agents (c : CoordinatorAgent) : List String :=
  dictKeys c.available_agents

/-- `CoordinatorAgent._format_results`: for one agent, the header line
followed by one block per subtask result, 1-indexed. -/
def formatAgentResults (agent : String) (rs : List String) : List String :=
  ("\n=== " ++ agent.toUpper ++ " ===") ::
    rs.enum.map (fun ir => "\nSubtarea " ++ toString (ir.1 + 1) ++ ":\n" ++ ir.2 ++ "\n")

/-- `CoordinatorAgent._format_results`: `"\n".join(formatted)` over all
agents of the results dict in insertion order. -/
def format_results (results : List (String × List String)) : String :=
  String.intercalate "\n" ((results.map fun ar => formatAgentResults ar.1 ar.2).flatten)

/-- The synthesis prompt built at the end of `delegate_and_synthesize`. -/
def synthesisTask (task : String) (results : List (String × List String)) : String :=
  "Sintetiza los siguientes resultados de diferentes agentes:\n\nTarea Original: " ++ task ++
    "\n\nResultados por agente:\n" ++ format_results results ++
    "\n\nGenera un resultado final coherente y completo que integre toda la información."

/-- The inner loop of `delegate_and_synthesize` over one agent's subtask
list: `for subtask in subtasks: result = await agent.run(subtask); ...`.
A raised exception aborts the loop and carries the agent state and call
counter reached at the failure. -/
def runSubtasks (client : OllamaClient) (a : Agent) (calls : Nat) :
    List String → Except String (List String) × Agent × Nat
  | [] => (.ok [], a, calls)
  | t :: rest =>
    match Agent.run client a calls t none with
    | (.ok r, a1, calls1) =>
      match runSubtasks client a1 calls1 rest with
      | (.ok rs, a2, calls2) => (.ok (r :: rs), a2, calls2)
      | (.error e, a2, calls2) => (.error e, a2, calls2)
    | (.error e, a1, calls1) => (.error e, a1, calls1)

/-- The outer loop of `delegate_and_synthesize` over the delegation map:
unregistered agent names are skipped (`continue`), registered ones run
their subtasks in order; the results dict collects one entry per executed
agent in iteration order.  Since Python agents are mutated in place, the
registry entry of an executed agent is replaced by its post-run state. -/
def delegateLoop (client : OllamaClient) (reg : List (String × Agent)) (calls : Nat) :
    List (String × List String) →
      Except String (List (String × List String)) × List (String × Agent) × Nat
  | [] => (.ok [], reg, calls)
  | (name, subtasks) :: rest =>
    match dictGet reg name with
    | none => delegateLoop client reg calls rest
    | some a =>
      match runSubtasks client a calls subtasks with
      | (.ok rs, a1, calls1) =>
        match delegateLoop client (dictSet reg name a1) calls1 rest with
        | (.ok resRest, reg2, calls2) => (.ok ((name, rs) :: resRest), reg2, calls2)
        | (.error e, reg2, calls2) => (.error e, reg2, calls2)
      | (.error e, a1, calls1) => (.error e, dictSet reg name a1, calls1)

/-- `CoordinatorAgent.delegate_and_synthesize`: run the delegation loop,
then issue one final `run` on the coordinator itself with the synthesis
prompt.  A raised exception during delegation propagates and the synthesis
call is never made. -/
def CoordinatorAgent.delegate_and_synthesize (client : OllamaClient) (c : CoordinatorAgent)
    (calls : Nat) (task : String) (agent_tasks : List (String × List String)) :
    Except String String × CoordinatorAgent × Nat :=
  match delegateLoop client c.available_agents calls agent_tasks with
  | (.error e, reg1, calls1) =>
      (.error e, { c with available_agents := reg1 }, calls1)
  | (.ok results, reg1, calls1) =>
    match Agent.run client c.agent calls1 (synthesisTask task results) none with
    | (.ok final, a1, calls2) =>
        (.ok final, { agent := a1, available_agents := reg1 }, calls2)
    | (.error e, a1, calls2) =>
        (.error e, { agent := a1, available_agents := reg1 }, calls2)

/-! ## Concrete agent variants (`researcher_agent.py`, `coder_agent.py`) -/

/-- `ResearcherAgent.DEFAULT_SYSTEM_PROMPT`. -/
def researcherDefaultSystemPrompt : String :=
  "Eres un agente de investigación experto con capacidades avanzadas de análisis y razonamiento.\n\nTus responsabilidades:\n- Analizar información compleja y extraer insights clave\n- Realizar investigación exhaustiva sobre temas dados\n- Proporcionar razonamiento paso a paso (chain-of-thought)\n- Sintetizar información de múltiples fuentes\n- Identificar patrones, tendencias y relaciones\n\nCuando investigues:\n1. Descompón el problema en partes manejables\n2. Analiza cada aspecto sistemáticamente\n3. Proporciona evidencia para tus conclusiones\n4. Presenta resultados de forma clara y estructurada\n\nSé riguroso, objetivo y exhaustivo en tus análisis."

/-- `ResearcherAgent.__init__` with its default arguments. -/
def mkResearcher (model : String) (temperature : Float)
    (custom_system_prompt : Option String) : Agent :=
  { config :=
      { name := "Researcher"
        model := model
        system_prompt := promptOrDefault custom_system_prompt researcherDefaultSystemPrompt
        temperature := temperature
        max_tokens := some 4096
        description := "Agente de investigación y análisis profundo" }
    conversation_history := [] }

/-- `CoderAgent.DEFAULT_SYSTEM_PROMPT`. -/
def coderDefaultSystemPrompt : String :=
  "Eres un agente de programación experto con conocimiento profundo en múltiples lenguajes y tecnologías.\n\nTus responsabilidades:\n- Generar código limpio, eficiente y bien documentado\n- Revisar código y sugerir mejoras\n- Explicar conceptos de programación\n- Debuggear y resolver problemas\n- Seguir best practices y patrones de diseño\n\nCuando escribas código:\n1. Usa nombres descriptivos para variables y funciones\n2. Incluye comentarios explicativos cuando sea necesario\n3. Sigue las convenciones del lenguaje\n4. Considera edge cases y manejo de errores\n5. Prioriza legibilidad y mantenibilidad\n\nLenguajes en los que eres experto: Python, JavaScript, TypeScript, Go, Rust, Java, C++, y más."

/-- `CoderAgent.__init__` with its default arguments. -/
def mkCoder (model : String) (temperature : Float)
    (custom_system_prompt : Option String) : Agent :=
  { config :=
      { name := "Coder"
        model := model
        system_prompt := promptOrDefault custom_system_prompt coderDefaultSystemPrompt
        temperature := temperature
        max_tokens := some 4096
        description := "Agente de programación y desarrollo de software" }
    conversation_history := [] }

/-! ## Concrete fixtures for witnesses and counterexamples -/

/-- A backend whose calls all succeed; chat responses carry a `message`
dict with a `content` key. -/
def okClient : OllamaClient :=
  { generate := fun _ _ => .ok "ok-response"
    chat := fun _ _ =>
      .ok { message := some { content := some "ok-reply" }, str_repr := "raw-chat" } }

/-- A backend whose calls all raise. -/
def errClient : OllamaClient :=
  { generate := fun _ _ => .error "boom"
    chat := fun _ _ => .error "boom" }

/-- A backend whose chat responses lack the `message` key. -/
def rawClient : OllamaClient :=
  { generate := fun _ _ => .ok "ok-response"
    chat := fun _ _ => .ok { message := none, str_repr := "raw-chat" } }

def testConfig : AgentConfig :=
  { name := "Tester"
    model := "m"
    system_prompt := "s"
    temperature := 0.5
    max_tokens := none
    description := "" }

/-- A concrete agent with empty history. -/
def testAgent : Agent := { config := testConfig, conversation_history := [] }

/-- A second agent configured with the same name as `testAgent` but
otherwise different. -/
def testAgent2 : Agent :=
  { config :=
      { name := "Tester"
        model := "m2"
        system_prompt := "s2"
        temperature := 0.9
        max_tokens := some 10
        description := "d2" }
    conversation_history := [] }

/-- A coordinator with `testAgent` registered. -/
def testCoordinator : CoordinatorAgent :=
  CoordinatorAgent.register_agent (mkCoordinator "llama3.2" 0.5 none) testAgent

/-- The registry of the end-to-end scenario of the spec: a coordinator with
the default Researcher and Coder registered. -/
def scenarioCoordinator : CoordinatorAgent :=
  CoordinatorAgent.register_agent
    (CoordinatorAgent.register_agent (mkCoordinator "llama3.2" 0.5 none)
      (mkResearcher "deepseek-r1:8b" 0.7 none))
    (mkCoder "qwen2.5:7b" 0.3 none)

/-! ## C1 -/

/-- C1 counterexample: the claim that `run` leaves the conversation history
unchanged is false.  On a successful backend call, `run` appends a
user/assistant turn pair: starting from empty history, one successful
`run("t")` call changes `get_conversation_history()`. -/
theorem C1_run_counterexample :
    Agent.get_conversation_history (Agent.run okClient testAgent 0 "t" none).2.1 ≠
      Agent.get_conversation_history testAgent := by
  decide

/-- C1 (amended): a successful `run(task, context)` call appends exactly the
pair `[user: task, assistant: response]` to the conversation history; when
the backend `generate` call raises, the history is unchanged. -/
theorem C1_run_appends_on_success (client : OllamaClient) (a : Agent) (calls : Nat)
    (task : String) (context : Option (List (String × String))) :
    (Agent.run client a calls task context).2.1.conversation_history =
      match (Agent.run client a calls task context).1 with
      | .ok r => a.conversation_history ++ [userTurn task, assistantTurn r]
      | .error _ => a.conversation_history := by
  cases hg : client.generate (genRequestOf a (prepare_prompt task context)) calls with
  | ok r => simp [Agent.run, hg]
  | error e => simp [Agent.run, hg]

/-! ## C10 -/

/-- C10: `run` is atomic with respect to history on failure.  If the
backend `generate` call raises, `run` propagates the error, the agent
state (in particular its conversation history) is exactly what it was
before the call, and only that one backend call was made. -/
theorem C10_run_atomic_on_failure (client : OllamaClient) (a : Agent) (calls : Nat)
    (task : String) (context : Option (List (String × String))) (e : String)
    (h : client.generate (genRequestOf a (prepare_prompt task context)) calls = .error e) :
    Agent.run client a calls task context = (.error e, a, calls + 1) := by
  simp [Agent.run, h]

/-- C10 witness: at a backend that always raises, `run` returns the error
and the agent unchanged. -/
theorem C10_witness :
    Agent.run errClient testAgent 0 "t" none = (.error "boom", testAgent, 0 + 1) :=
  C10_run_atomic_on_failure errClient testAgent 0 "t" none "boom" rfl

/-! ## C5 -/

/-- C5: when the backend `chat` call raises during `chat(m)`, the user turn
appended at the start of the call remains in the history (no rollback), no
assistant turn is appended, and the error propagates to the caller. -/
theorem C5_chat_failure_keeps_user_turn (client : OllamaClient) (a : Agent) (calls : Nat)
    (m : String) (e : String)
    (h : client.chat (chatRequestOf a (a.conversation_history ++ [userTurn m])) calls = .error e) :
    Agent.chat client a calls m =
      (.error e,
       { a with conversation_history := a.conversation_history ++ [userTurn m] },
       calls + 1) := by
  simp [Agent.chat, h]

/-- C5 witness: at a backend that always raises, `chat` leaves exactly the
new user turn in the history and propagates the error. -/
theorem C5_witness :
    Agent.chat errClient testAgent 0 "m" =
      (.error "boom",
       { testAgent with conversation_history := testAgent.conversation_history ++ [userTurn "m"] },
       0 + 1) :=
  C5_chat_failure_keeps_user_turn errClient testAgent 0 "m" "boom" rfl

/-! ## C6 -/

/-- C6: `chat` extracts the assistant reply from the `message` field of how the
structured response is shaped (taking its `content`, defaulting to the empty
string); whenever the `message` field is absent, `chat` returns the
stringified representation of the whole response instead of failing. -/
theorem C6_chat_reply_extraction :
    (∀ (client : OllamaClient) (a : Agent) (calls : Nat) (m : String) (rd : ChatResponse)
        (mf : ChatMessageField),
        client.chat (chatRequestOf a (a.conversation_history ++ [userTurn m])) calls = .ok rd →
        rd.message = some mf →
        (Agent.chat client a calls m).1 = .ok (mf.content.getD "")) ∧
    (∀ (client : OllamaClient) (a : Agent) (calls : Nat) (m : String) (rd : ChatResponse),
        client.chat (chatRequestOf a (a.conversation_history ++ [userTurn m])) calls = .ok rd →
        rd.message = none →
        (Agent.chat client a calls m).1 = .ok rd.str_repr) := by
  constructor
  · intro client a calls m rd mf h hm
    simp [Agent.chat, h, extractReply, hm]
  · intro client a calls m rd h hm
    simp [Agent.chat, h, extractReply, hm]

/-- C6 witness: with a well-shaped response the reply is the `content`
field; with a response lacking the `message` key the reply is the
stringified response. -/
theorem C6_witness :
    (Agent.chat okClient testAgent 0 "m").1 = .ok "ok-reply" ∧
    (Agent.chat rawClient testAgent 0 "m").1 = .ok "raw-chat" :=
  ⟨C6_chat_reply_extraction.1 okClient testAgent 0 "m"
      { message := some { content := some "ok-reply" }, str_repr := "raw-chat" }
      { content := some "ok-reply" } rfl rfl,
   C6_chat_reply_extraction.2 rawClient testAgent 0 "m"
      { message := none, str_repr := "raw-chat" } rfl rfl⟩

/-! ## C9 -/

/-- Follows the spec words for the context case of the prompt: a rendered
`key: value` block followed by the task text (the block rendering itself
is the one of the source). -/
def specPromptWithContext (ctx : List (String × String)) (task : String) : String :=
  "Context:\n" ++ String.intercalate "\n" (ctx.map fun kv => kv.1 ++ ": " ++ kv.2) ++
    "\n\nTask:\n" ++ task

/-- C9 counterexample: the claim fails for a present-but-empty context
mapping.  Python's `if context:` is a truthiness test, so an empty dict
falls through to returning the task verbatim instead of the rendered
block the claim requires for every present context. -/
theorem C9_counterexample :
    prepare_prompt "t" (some []) ≠ specPromptWithContext [] "t" := by
  decide

/-- C9 (amended): when context is present and non-empty the prompt is the
rendered `key: value` block followed by the task text; when context is
absent or empty the prompt is the task text verbatim. -/
theorem C9_prepare_prompt_amended (task : String) (context : Option (List (String × String))) :
    prepare_prompt task context =
      match context with
      | some ctx => if ctx.isEmpty then task else specPromptWithContext ctx task
      | none => task := by
  cases context with
  | none => rfl
  | some ctx => cases ctx <;> rfl

/-! ## C2 -/

/-- C2: a backend failure during delegation aborts everything.  If the
`run` of a subtask raises, the remaining subtasks of that agent consume no
backend calls and the error, the agent state and the call counter at the
failure point are returned as they are; and an error outcome of the
delegation loop propagates unmodified out of `delegate_and_synthesize`
with the same call counter, so the final synthesis `run` is never
issued. -/
theorem C2_delegation_abort :
    (∀ (client : OllamaClient) (a : Agent) (calls : Nat) (t : String)
        (rest : List String) (e : String),
        (Agent.run client a calls t none).1 = .error e →
        runSubtasks client a calls (t :: rest) = (.error e, a, calls + 1)) ∧
    (∀ (client : OllamaClient) (c : CoordinatorAgent) (calls : Nat) (task : String)
        (agent_tasks : List (String × List String)) (e : String)
        (reg1 : List (String × Agent)) (calls1 : Nat),
        delegateLoop client c.available_agents calls agent_tasks = (.error e, reg1, calls1) →
        CoordinatorAgent.delegate_and_synthesize client c calls task agent_tasks =
          (.error e, { c with available_agents := reg1 }, calls1)) := by
  constructor
  · intro client a calls t rest e h
    cases hg : client.generate (genRequestOf a (prepare_prompt t none)) calls with
    | ok r => simp [Agent.run, hg] at h
    | error e2 =>
        have he : e2 = e := by simpa [Agent.run, hg] using h
        subst he
        simp [runSubtasks, Agent.run, hg]
  · intro client c calls task agent_tasks e reg1 calls1 h
    simp [CoordinatorAgent.delegate_and_synthesize, h]

/-- C2 witness: with a backend that always raises, the second subtask is
never attempted and the delegation of one registered agent aborts with no
synthesis call (one single backend call in total). -/
theorem C2_witness :
    runSubtasks errClient testAgent 0 ("t1" :: ["t2"]) = (.error "boom", testAgent, 0 + 1) ∧
    CoordinatorAgent.delegate_and_synthesize errClient testCoordinator 0 "task"
        [("Tester", ["t1"])] =
      (.error "boom",
       { testCoordinator with available_agents := [("Tester", testAgent)] }, 1) :=
  ⟨C2_delegation_abort.1 errClient testAgent 0 "t1" ["t2"] "boom" rfl,
   C2_delegation_abort.2 errClient testCoordinator 0 "task" [("Tester", ["t1"])] "boom"
     [("Tester", testAgent)] 1 rfl⟩

/-! ## C4 -/

/-- C4: a delegation-map entry whose agent name is not registered is
skipped rather than fatal (the warning log is not modelled): the whole
call behaves exactly as if the entry were absent, so the skipped agent
contributes nothing to the synthesis block and the remaining entries
still run; on a map holding only the unregistered entry, exactly one
backend call — the final synthesis `run` — is still issued. -/
theorem C4_unknown_agent_skipped :
    (∀ (client : OllamaClient) (c : CoordinatorAgent) (calls : Nat) (task : String)
        (name : String) (sts : List String) (rest : List (String × List String)),
        dictGet c.available_agents name = none →
        CoordinatorAgent.delegate_and_synthesize client c calls task ((name, sts) :: rest) =
          CoordinatorAgent.delegate_and_synthesize client c calls task rest) ∧
    (∀ (client : OllamaClient) (c : CoordinatorAgent) (calls : Nat) (task : String)
        (name : String) (sts : List String),
        dictGet c.available_agents name = none →
        (CoordinatorAgent.delegate_and_synthesize client c calls task [(name, sts)]).2.2 =
          calls + 1) := by
  constructor
  · intro client c calls task name sts rest h
    simp [CoordinatorAgent.delegate_and_synthesize, delegateLoop, h]
  · intro client c calls task name sts h
    simp [CoordinatorAgent.delegate_and_synthesize, delegateLoop, h]
    cases hg : client.generate
        (genRequestOf c.agent (prepare_prompt (synthesisTask task []) none)) calls with
    | ok r => simp [Agent.run, hg]
    | error e => simp [Agent.run, hg]

/-- C4 witness: on an empty registry, a map naming only the unregistered
agent "X" behaves as the empty map and still makes exactly the one
synthesis call. -/
theorem C4_witness :
    CoordinatorAgent.delegate_and_synthesize okClient (mkCoordinator "llama3.2" 0.5 none) 0
        "task" [("X", ["t1", "t2"])] =
      CoordinatorAgent.delegate_and_synthesize okClient (mkCoordinator "llama3.2" 0.5 none) 0
        "task" [] ∧
    (CoordinatorAgent.delegate_and_synthesize okClient (mkCoordinator "llama3.2" 0.5 none) 0
        "task" [("X", ["t1", "t2"])]).2.2 = 0 + 1 :=
  ⟨C4_unknown_agent_skipped.1 okClient (mkCoordinator "llama3.2" 0.5 none) 0 "task" "X"
      ["t1", "t2"] [] rfl,
   C4_unknown_agent_skipped.2 okClient (mkCoordinator "llama3.2" 0.5 none) 0 "task" "X"
      ["t1", "t2"] rfl⟩

/-! ## C3 -/

/-- Harness for C3: a sequence of `chat` calls, one per message, stopping
at the first raised exception (each call is `BaseAgent.chat`; the list of
returned replies is collected). -/
def chatMany (client : OllamaClient) (a : Agent) (calls : Nat) :
    List String → Except String (List String) × Agent × Nat
  | [] => (.ok [], a, calls)
  | m :: ms =>
    match Agent.chat client a calls m with
    | (.ok r, a1, calls1) =>
      match chatMany client a1 calls1 ms with
      | (.ok rs, a2, calls2) => (.ok (r :: rs), a2, calls2)
      | (.error e, a2, calls2) => (.error e, a2, calls2)
    | (.error e, a1, calls1) => (.error e, a1, calls1)

/-- The alternating history `[user m1, assistant r1, user m2, assistant r2, ...]`
of the claim. -/
def interleaveTurns : List String → List String → List Turn
  | m :: ms, r :: rs => userTurn m :: assistantTurn r :: interleaveTurns ms rs
  | _, _ => []

/-- Unfolding of a successful `chat` call. -/
lemma chat_eq_of_ok (client : OllamaClient) (a : Agent) (calls : Nat) (m : String)
    (rd : ChatResponse)
    (hg : client.chat (chatRequestOf a (a.conversation_history ++ [userTurn m])) calls = .ok rd) :
    Agent.chat client a calls m =
      (.ok (extractReply rd),
       { a with conversation_history :=
           a.conversation_history ++ [userTurn m, assistantTurn (extractReply rd)] },
       calls + 1) := by
  simp [Agent.chat, hg]

/-- A successful `chat(m)` call appends exactly one user turn followed by
one assistant turn carrying the returned reply. -/
lemma chat_ok_history (client : OllamaClient) (a : Agent) (calls : Nat) (m r : String)
    (a1 : Agent) (calls1 : Nat)
    (h : Agent.chat client a calls m = (.ok r, a1, calls1)) :
    a1.conversation_history = a.conversation_history ++ [userTurn m, assistantTurn r] := by
  cases hg : client.chat (chatRequestOf a (a.conversation_history ++ [userTurn m])) calls with
  | ok rd =>
      rw [chat_eq_of_ok client a calls m rd hg] at h
      simp only [Prod.mk.injEq, Except.ok.injEq] at h
      obtain ⟨h1, h2, h3⟩ := h
      subst h1
      rw [← h2]
  | error e =>
      simp [Agent.chat, hg] at h

/-- A successful sequence of `chat` calls extends the history by the
alternating user/assistant turn sequence of the messages and replies. -/
lemma chatMany_ok_history (client : OllamaClient) :
    ∀ (msgs : List String) (a : Agent) (calls : Nat) (rs : List String)
      (a1 : Agent) (calls1 : Nat),
      chatMany client a calls msgs = (.ok rs, a1, calls1) →
      a1.conversation_history = a.conversation_history ++ interleaveTurns msgs rs ∧
        rs.length = msgs.length := by
  intro msgs
  induction msgs with
  | nil =>
      intro a calls rs a1 calls1 h
      simp [chatMany] at h
      obtain ⟨h1, h2, h3⟩ := h
      subst h1
      subst h2
      simp [interleaveTurns]
  | cons m ms ih =>
      intro a calls rs a1 calls1 h
      rcases hchat : Agent.chat client a calls m with ⟨res, aMid, callsMid⟩
      cases res with
      | error e => simp [chatMany, hchat] at h
      | ok r =>
          rcases hrest : chatMany client aMid callsMid ms with ⟨resR, aEnd, callsEnd⟩
          cases resR with
          | error e =>
              simp [chatMany, hchat, hrest] at h
          | ok rsR =>
              have hh : chatMany client a calls (m :: ms) = (.ok (r :: rsR), aEnd, callsEnd) := by
                simp [chatMany, hchat, hrest]
              rw [hh] at h
              simp only [Prod.mk.injEq, Except.ok.injEq] at h
              obtain ⟨h1, h2, h3⟩ := h
              subst h1
              subst h2
              subst h3
              have hmid := chat_ok_history client a calls m r aMid callsMid hchat
              have hrec := ih aMid callsMid rsR aEnd callsEnd hrest
              refine ⟨?_, by simp [hrec.2]⟩
              rw [hrec.1, hmid]
              simp [interleaveTurns]

/-- C3: every successful `chat(m)` call appends exactly one user turn
followed by one assistant turn carrying the returned reply; hence, from an
empty history, a sequence of successful calls with messages `m1, m2, ...`
leaves the history as exactly the alternating sequence
`[user m1, assistant r1, user m2, assistant r2, ...]` of the messages and
the returned replies. -/
theorem C3_chat_history_alternation :
    (∀ (client : OllamaClient) (a : Agent) (calls : Nat) (m r : String)
        (a1 : Agent) (calls1 : Nat),
        Agent.chat client a calls m = (.ok r, a1, calls1) →
        a1.conversation_history = a.conversation_history ++ [userTurn m, assistantTurn r]) ∧
    (∀ (client : OllamaClient) (a : Agent) (calls : Nat) (msgs rs : List String)
        (a1 : Agent) (calls1 : Nat),
        a.conversation_history = [] →
        chatMany client a calls msgs = (.ok rs, a1, calls1) →
        a1.conversation_history = interleaveTurns msgs rs ∧ rs.length = msgs.length) := by
  refine ⟨chat_ok_history, ?_⟩
  intro client a calls msgs rs a1 calls1 hempty h
  have hm := chatMany_ok_history client msgs a calls rs a1 calls1 h
  rw [hempty] at hm
  simpa using hm

/-- C3 witness: two successful chat calls from an empty history produce
the alternating four-turn history. -/
theorem C3_witness :
    ((chatMany okClient testAgent 0 ["m1", "m2"]).2.1.conversation_history =
        interleaveTurns ["m1", "m2"] ["ok-reply", "ok-reply"] ∧
      (["ok-reply", "ok-reply"] : List String).length = (["m1", "m2"] : List String).length) ∧
    (Agent.chat okClient testAgent 0 "m").2.1.conversation_history =
      testAgent.conversation_history ++ [userTurn "m", assistantTurn "ok-reply"] :=
  ⟨C3_chat_history_alternation.2 okClient testAgent 0 ["m1", "m2"] ["ok-reply", "ok-reply"]
      (chatMany okClient testAgent 0 ["m1", "m2"]).2.1
      (chatMany okClient testAgent 0 ["m1", "m2"]).2.2 rfl rfl,
   C3_chat_history_alternation.1 okClient testAgent 0 "m" "ok-reply"
      (Agent.chat okClient testAgent 0 "m").2.1
      (Agent.chat okClient testAgent 0 "m").2.2 rfl⟩

/-! ## Dict lemmas (for C7 and C8) -/

lemma mem_dictKeys_iff_any {α : Type} (d : List (String × α)) (k : String) :
    (d.any fun kv => kv.1 == k) = true ↔ k ∈ dictKeys d := by
  simp [dictKeys, List.any_eq_true, List.mem_map, beq_iff_eq]

lemma find_map_replace {α : Type} (d : List (String × α)) (k : String) (v : α) :
    ((d.map fun kv => if kv.1 == k then (k, v) else kv).find? fun kv => kv.1 == k) =
      if (d.any fun kv => kv.1 == k) then some (k, v) else none := by
  induction d with
  | nil => rfl
  | cons p rest ih =>
      by_cases hp : (p.1 == k) = true
      · have h1 : (p :: rest).map (fun kv => if kv.1 == k then (k, v) else kv) =
            (k, v) :: rest.map (fun kv => if kv.1 == k then (k, v) else kv) := by
          rw [List.map_cons, if_pos hp]
        rw [h1, List.find?_cons, show ((k, v).1 == k) = true from by simp,
          List.any_cons, hp]
        rfl
      · have hpf : (p.1 == k) = false := by simpa using hp
        have h1 : (p :: rest).map (fun kv => if kv.1 == k then (k, v) else kv) =
            p :: rest.map (fun kv => if kv.1 == k then (k, v) else kv) := by
          rw [List.map_cons, if_neg hp]
        rw [h1, List.find?_cons, hpf, ih, List.any_cons, hpf]
        rfl

/-- Assignment followed by lookup at the same key yields the new value. -/
lemma dictGet_dictSet_self {α : Type} (d : List (String × α)) (k : String) (v : α) :
    dictGet (dictSet d k v) k = some v := by
  unfold dictGet dictSet
  by_cases h : (d.any fun kv => kv.1 == k) = true
  · rw [if_pos h, find_map_replace, if_pos h]
    rfl
  · have hnone : d.find? (fun kv => kv.1 == k) = none := by
      simp only [List.find?_eq_none]
      intro x hx hb
      simp only [List.any_eq_true] at h
      exact h ⟨x, hx, hb⟩
    rw [if_neg h, List.find?_append, hnone, List.find?_singleton,
      show ((k, v).1 == k) = true from by simp]
    rfl

lemma dictKeys_map_replace {α : Type} (d : List (String × α)) (k : String) (v : α) :
    dictKeys (d.map fun kv => if kv.1 == k then (k, v) else kv) = dictKeys d := by
  unfold dictKeys
  rw [List.map_map]
  refine List.map_congr_left ?_
  rintro ⟨a, b⟩ _
  by_cases hp : a = k
  · simp [Function.comp, hp]
  · simp [Function.comp, hp]

/-- Assignment replaces in place on an existing key and appends on a fresh
one, as seen on the key sequence. -/
lemma dictKeys_dictSet {α : Type} (d : List (String × α)) (k : String) (v : α) :
    dictKeys (dictSet d k v) =
      if k ∈ dictKeys d then dictKeys d else dictKeys d ++ [k] := by
  unfold dictSet
  by_cases h : (d.any fun kv => kv.1 == k) = true
  · have hm : k ∈ dictKeys d := (mem_dictKeys_iff_any d k).mp h
    rw [if_pos h, if_pos hm]
    exact dictKeys_map_replace d k v
  · have hm : k ∉ dictKeys d := fun hc => h ((mem_dictKeys_iff_any d k).mpr hc)
    rw [if_neg h, if_neg hm]
    unfold dictKeys
    rw [List.map_append]
    rfl

lemma dictGet_isSome_iff {α : Type} (d : List (String × α)) (k : String) :
    (dictGet d k).isSome = true ↔ k ∈ dictKeys d := by
  simp [dictGet, dictKeys, List.find?_isSome, List.mem_map, beq_iff_eq]

lemma dictGet_mem_keys {α : Type} (d : List (String × α)) (k : String) (v : α)
    (h : dictGet d k = some v) : k ∈ dictKeys d := by
  have hs : (dictGet d k).isSome = true := by rw [h]; rfl
  exact (dictGet_isSome_iff d k).mp hs

/-! ## C7 -/

/-- C7: registering `A` and then `A1`, configured with the same name,
leaves the registry with that name listed exactly once and the stored
entry referencing `A1` (last registration wins).  The registry keys are
assumed duplicate-free, which the dict representation guarantees. -/
theorem C7_register_last_wins (c : CoordinatorAgent) (A A1 : Agent)
    (hname : A1.config.name = A.config.name)
    (hnodup : (CoordinatorAgent.list_available_agents c).Nodup) :
    (CoordinatorAgent.list_available_agents
        (CoordinatorAgent.register_agent (CoordinatorAgent.register_agent c A) A1)).count
        A.config.name = 1 ∧
    dictGet
        (CoordinatorAgent.register_agent
          (CoordinatorAgent.register_agent c A) A1).available_agents
        A.config.name = some A1 := by
  have hnodup2 : (dictKeys c.available_agents).Nodup := hnodup
  constructor
  · show (dictKeys (dictSet (dictSet c.available_agents A.config.name A)
        A1.config.name A1)).count A.config.name = 1
    rw [hname]
    have h1 := dictKeys_dictSet c.available_agents A.config.name A
    have hmem : A.config.name ∈ dictKeys (dictSet c.available_agents A.config.name A) := by
      rw [h1]
      by_cases hm : A.config.name ∈ dictKeys c.available_agents
      · simp [hm]
      · simp [hm]
    rw [dictKeys_dictSet _ A.config.name A1, if_pos hmem, h1]
    by_cases hm : A.config.name ∈ dictKeys c.available_agents
    · rw [if_pos hm]
      exact List.count_eq_one_of_mem hnodup2 hm
    · rw [if_neg hm, List.count_append, List.count_eq_zero.mpr hm]
      simp
  · show dictGet (dictSet (dictSet c.available_agents A.config.name A)
        A1.config.name A1) A.config.name = some A1
    rw [hname]
    exact dictGet_dictSet_self _ A.config.name A1

/-- C7 witness: registering `testAgent` and then `testAgent2` (same name
"Tester") on a fresh coordinator lists "Tester" once and stores
`testAgent2`. -/
theorem C7_witness :
    (CoordinatorAgent.list_available_agents
        (CoordinatorAgent.register_agent
          (CoordinatorAgent.register_agent (mkCoordinator "llama3.2" 0.5 none) testAgent)
          testAgent2)).count testAgent.config.name = 1 ∧
    dictGet
        (CoordinatorAgent.register_agent
          (CoordinatorAgent.register_agent (mkCoordinator "llama3.2" 0.5 none) testAgent)
          testAgent2).available_agents
        testAgent.config.name = some testAgent2 :=
  C7_register_last_wins (mkCoordinator "llama3.2" 0.5 none) testAgent testAgent2 rfl
    List.nodup_nil

/-! ## C8 -/

/-- The number of backend calls the delegation loop makes: one per subtask
of every entry whose agent name is registered. -/
def registeredSubtaskCount (reg : List (String × Agent)) :
    List (String × List String) → Nat
  | [] => 0
  | (nm, sts) :: rest =>
    (if (dictGet reg nm).isSome then sts.length else 0) + registeredSubtaskCount reg rest

/-- Every `run` call advances the backend call counter by exactly one. -/
lemma run_calls_succ (client : OllamaClient) (a : Agent) (calls : Nat) (task : String)
    (context : Option (List (String × String))) :
    (Agent.run client a calls task context).2.2 = calls + 1 := by
  cases hg : client.generate (genRequestOf a (prepare_prompt task context)) calls <;>
    simp [Agent.run, hg]

/-- A successful subtask loop makes exactly one backend call per subtask. -/
lemma runSubtasks_ok_calls (client : OllamaClient) :
    ∀ (sts : List String) (a : Agent) (calls : Nat) (rs : List String)
      (a1 : Agent) (calls1 : Nat),
      runSubtasks client a calls sts = (.ok rs, a1, calls1) →
      calls1 = calls + sts.length := by
  intro sts
  induction sts with
  | nil =>
      intro a calls rs a1 calls1 h
      simp [runSubtasks] at h
      obtain ⟨h1, h2, h3⟩ := h
      subst h3
      simp
  | cons t rest ih =>
      intro a calls rs a1 calls1 h
      rcases hrun : Agent.run client a calls t none with ⟨res, aMid, callsMid⟩
      have hcm : callsMid = calls + 1 := by
        have hs := run_calls_succ client a calls t none
        rw [hrun] at hs
        exact hs
      cases res with
      | error e => simp [runSubtasks, hrun] at h
      | ok r =>
          rcases hrest : runSubtasks client aMid callsMid rest with ⟨resR, aEnd, callsEnd⟩
          cases resR with
          | error e => simp [runSubtasks, hrun, hrest] at h
          | ok rsR =>
              have hh : runSubtasks client a calls (t :: rest) =
                  (.ok (r :: rsR), aEnd, callsEnd) := by
                simp [runSubtasks, hrun, hrest]
              rw [hh] at h
              simp only [Prod.mk.injEq, Except.ok.injEq] at h
              obtain ⟨h1, h2, h3⟩ := h
              subst h3
              have h4 := ih aMid callsMid rsR aEnd callsEnd hrest
              simp only [List.length_cons]
              omega

/-- `registeredSubtaskCount` depends only on the keys of the registry. -/
lemma registeredSubtaskCount_keys_congr (reg1 reg2 : List (String × Agent))
    (h : dictKeys reg1 = dictKeys reg2) :
    ∀ l, registeredSubtaskCount reg1 l = registeredSubtaskCount reg2 l := by
  intro l
  induction l with
  | nil => rfl
  | cons p rest ih =>
      rcases p with ⟨nm, sts⟩
      have hb : (dictGet reg1 nm).isSome = (dictGet reg2 nm).isSome := by
        have hiff : (dictGet reg1 nm).isSome = true ↔ (dictGet reg2 nm).isSome = true := by
          rw [dictGet_isSome_iff, dictGet_isSome_iff, h]
        cases hh1 : (dictGet reg1 nm).isSome <;> cases hh2 : (dictGet reg2 nm).isSome <;>
          simp_all
      simp [registeredSubtaskCount, hb, ih]

/-- A successful delegation loop makes exactly one backend call per subtask
of every registered entry, and preserves the registry keys. -/
lemma delegateLoop_ok_calls (client : OllamaClient) :
    ∀ (atasks : List (String × List String)) (reg : List (String × Agent)) (calls : Nat)
      (results : List (String × List String)) (reg1 : List (String × Agent)) (calls1 : Nat),
      delegateLoop client reg calls atasks = (.ok results, reg1, calls1) →
      calls1 = calls + registeredSubtaskCount reg atasks ∧ dictKeys reg1 = dictKeys reg := by
  intro atasks
  induction atasks with
  | nil =>
      intro reg calls results reg1 calls1 h
      simp [delegateLoop] at h
      obtain ⟨h1, h2, h3⟩ := h
      subst h2
      subst h3
      simp [registeredSubtaskCount]
  | cons p rest ih =>
      intro reg calls results reg1 calls1 h
      rcases p with ⟨nm, sts⟩
      cases hget : dictGet reg nm with
      | none =>
          have hh : delegateLoop client reg calls ((nm, sts) :: rest) =
              delegateLoop client reg calls rest := by
            simp [delegateLoop, hget]
          rw [hh] at h
          have hr := ih reg calls results reg1 calls1 h
          refine ⟨?_, hr.2⟩
          rw [hr.1]
          simp [registeredSubtaskCount, hget]
      | some a =>
          rcases hrun : runSubtasks client a calls sts with ⟨resS, aS, callsS⟩
          cases resS with
          | error e => simp [delegateLoop, hget, hrun] at h
          | ok rs =>
              rcases hrest : delegateLoop client (dictSet reg nm aS) callsS rest with
                ⟨resR, regR, callsR⟩
              cases resR with
              | error e => simp [delegateLoop, hget, hrun, hrest] at h
              | ok resRest =>
                  have hh : delegateLoop client reg calls ((nm, sts) :: rest) =
                      (.ok ((nm, rs) :: resRest), regR, callsR) := by
                    simp [delegateLoop, hget, hrun, hrest]
                  rw [hh] at h
                  simp only [Prod.mk.injEq, Except.ok.injEq] at h
                  obtain ⟨h1, h2, h3⟩ := h
                  subst h2
                  subst h3
                  have hS : callsS = calls + sts.length :=
                    runSubtasks_ok_calls client sts a calls rs aS callsS hrun
                  have hkeys : dictKeys (dictSet reg nm aS) = dictKeys reg := by
                    rw [dictKeys_dictSet, if_pos (dictGet_mem_keys reg nm a hget)]
                  have hrec := ih (dictSet reg nm aS) callsS resRest regR callsR hrest
                  refine ⟨?_, by rw [hrec.2, hkeys]⟩
                  rw [hrec.1, registeredSubtaskCount_keys_congr _ _ hkeys rest, hS]
                  simp [registeredSubtaskCount, hget]
                  omega

/-- C8: on a delegation map whose entries are all registered (and in
general), a successful `delegate_and_synthesize` makes exactly one backend
call per subtask of every registered entry, sequentially, plus exactly one
final synthesis call; in the end-to-end scenario of the spec (Researcher
and Coder registered, one subtask each) exactly 3 backend calls are made
and a non-empty text is returned. -/
theorem C8_backend_call_counts :
    (∀ (client : OllamaClient) (c : CoordinatorAgent) (calls : Nat) (task : String)
        (agent_tasks : List (String × List String)) (res : String)
        (c1 : CoordinatorAgent) (calls1 : Nat),
        CoordinatorAgent.delegate_and_synthesize client c calls task agent_tasks =
          (.ok res, c1, calls1) →
        calls1 = calls + registeredSubtaskCount c.available_agents agent_tasks + 1) ∧
    ((CoordinatorAgent.delegate_and_synthesize okClient scenarioCoordinator 0
        "Explain recursion"
        [("Researcher", ["Define recursion"]), ("Coder", ["Write a factorial example"])]).2.2 =
        3 ∧
      (CoordinatorAgent.delegate_and_synthesize okClient scenarioCoordinator 0
        "Explain recursion"
        [("Researcher", ["Define recursion"]), ("Coder", ["Write a factorial example"])]).1 =
        .ok "ok-response" ∧
      "ok-response" ≠ "") := by
  constructor
  · intro client c calls task agent_tasks res c1 calls1 h
    rcases hloop : delegateLoop client c.available_agents calls agent_tasks with
      ⟨resL, regL, callsL⟩
    cases resL with
    | error e => simp [CoordinatorAgent.delegate_and_synthesize, hloop] at h
    | ok results =>
        rcases hrun : Agent.run client c.agent callsL (synthesisTask task results) none with
          ⟨resR, aR, callsR⟩
        have hcr : callsR = callsL + 1 := by
          have hs := run_calls_succ client c.agent callsL (synthesisTask task results) none
          rw [hrun] at hs
          exact hs
        cases resR with
        | error e =>
            have hh : CoordinatorAgent.delegate_and_synthesize client c calls task agent_tasks =
                (.error e, { agent := aR, available_agents := regL }, callsR) := by
              simp [CoordinatorAgent.delegate_and_synthesize, hloop, hrun]
            rw [hh] at h
            simp at h
        | ok final =>
            have hh : CoordinatorAgent.delegate_and_synthesize client c calls task agent_tasks =
                (.ok final, { agent := aR, available_agents := regL }, callsR) := by
              simp [CoordinatorAgent.delegate_and_synthesize, hloop, hrun]
            rw [hh] at h
            simp only [Prod.mk.injEq, Except.ok.injEq] at h
            obtain ⟨h1, h2, h3⟩ := h
            subst h3
            have hl := delegateLoop_ok_calls client agent_tasks c.available_agents calls
              results regL callsL hloop
            omega
  · exact ⟨rfl, rfl, by decide⟩

/-- C8 witness: in the end-to-end scenario the call-count law instantiates
to 3 = 0 + 2 + 1. -/
theorem C8_witness :
    (3 : Nat) = 0 + registeredSubtaskCount scenarioCoordinator.available_agents
        [("Researcher", ["Define recursion"]), ("Coder", ["Write a factorial example"])] + 1 :=
  C8_backend_call_counts.1 okClient scenarioCoordinator 0 "Explain recursion"
    [("Researcher", ["Define recursion"]), ("Coder", ["Write a factorial example"])]
    "ok-response"
    (CoordinatorAgent.delegate_and_synthesize okClient scenarioCoordinator 0
      "Explain recursion"
      [("Researcher", ["Define recursion"]), ("Coder", ["Write a factorial example"])]).2.1
    3 rfl

end IaChat
